import Mathlib

/-!
Shallow embedding of the Square webhook processing hub.

The JavaScript source is embedded as pure Lean functions:
stateful Vercel KV access becomes explicit state passing on `KVState`,
JS promise outcomes of external calls (Square API enrichment, the four
distribution sinks, the KV client) become `Except`/`Option` parameters,
and JS truthiness on optional strings/numbers is modelled explicitly.
External primitives that the repository only calls (HMAC-SHA256,
`JSON.parse`, the per-event retry run of the sweeper) are parameters of
the embedded functions; everything else follows the source line by line.
-/

namespace SquareWebhook

/-- JS truthiness of an optional string: `undefined`/`null` and the empty
string are falsy, every other string is truthy. -/
def optTruthy : Option String → Bool
  | some s => !(s == "")
  | none => false

/-- JS `x || 'unknown'` on an optional string field. -/
def jsOrUnknown (o : Option String) : String :=
  if optTruthy o then o.getD "" else "unknown"

/-- `total_money` / `amount_money` object of a Square payload: an amount in
cents (a JS number, possibly absent) and a currency code. -/
structure Money where
  amount : Option Int
  currency : Option String
deriving DecidableEq

/-- `data.object` of a Square webhook payload: the fields the hub reads. -/
structure SqObject where
  id : Option String
  location_id : Option String
  total_money : Option Money
  amount_money : Option Money
deriving DecidableEq

/-- `data` field of a webhook payload. -/
structure DataField where
  object : Option SqObject
deriving DecidableEq

/-- An inbound webhook envelope (`webhookData` in the source): every field
is optional, as in the raw parsed JSON. -/
structure WebhookData where
  event_id : Option String
  type : Option String
  merchant_id : Option String
  data : Option DataField
deriving DecidableEq

/-- JS `webhookData.type?.startsWith(p)`: `false` when `type` is absent. -/
def typeStartsWith (wd : WebhookData) (p : String) : Bool :=
  match wd.type with
  | some t => p.toList.isPrefixOf t.toList
  | none => false

/-- JS optional chain `webhookData.data?.object?.total_money?.amount`. -/
def totalAmount (wd : WebhookData) : Option Int :=
  ((wd.data.bind (·.object)).bind (·.total_money)).bind (·.amount)

/-- JS optional chain `webhookData.data?.object?.amount_money?.amount`. -/
def paymentAmount (wd : WebhookData) : Option Int :=
  ((wd.data.bind (·.object)).bind (·.amount_money)).bind (·.amount)

/-- JS truthiness of an optional number: absent, `0` (and `NaN`) are falsy. -/
def amountTruthy : Option Int → Bool
  | some a => !(a == 0)
  | none => false

/-- `getOrderValue` (part_003 lines 48-60): for `order.*` events with a
truthy `total_money.amount` return `amount / 100`; for `payment.*` events
with a truthy `amount_money.amount` return `amount / 100`; otherwise `0`.
JS number division is exact here, so the value is a rational. -/
def getOrderValue (wd : WebhookData) : ℚ :=
  if typeStartsWith wd "order." && amountTruthy (totalAmount wd) then
    ((totalAmount wd).getD 0 : ℚ) / 100
  else if typeStartsWith wd "payment." && amountTruthy (paymentAmount wd) then
    ((paymentAmount wd).getD 0 : ℚ) / 100
  else 0

/-- The process environment variables the pipeline reads.
`highValueThreshold` is the already-`Number()`-parsed value of
`HIGH_VALUE_THRESHOLD` (`none` when unset or `NaN`). -/
structure Env where
  gtmServerUrl : Option String
  crmWebhookUrl : Option String
  notificationWebhookUrl : Option String
  highValueThreshold : Option ℚ
  squareSignatureKey : Option String
deriving DecidableEq

/-- `Number(process.env.HIGH_VALUE_THRESHOLD) || 100` (part_003 line 241):
`NaN` (unset / unparsable) and `0` fall back to `100`. -/
def highValueThresholdOf (env : Env) : ℚ :=
  match env.highValueThreshold with
  | some q => if q = 0 then 100 else q
  | none => 100

/-- The four distribution sinks of `distributeEvent`. -/
inductive Target
  | gtm
  | crm
  | notification
  | dashboard
deriving DecidableEq

/-- The sinks `distributeEvent` (part_003 lines 186-276) pushes onto
`eventDistributionPromises`, in source order: GTM if `GTM_SERVER_URL` is
set, CRM if `CRM_WEBHOOK_URL` is set, the high-value alert if the computed
order value strictly exceeds the threshold and `NOTIFICATION_WEBHOOK_URL`
is set, and always the analytics dashboard. -/
def enabledTargets (env : Env) (wd : WebhookData) : List Target :=
  (if optTruthy env.gtmServerUrl then [Target.gtm] else []) ++
  (if optTruthy env.crmWebhookUrl then [Target.crm] else []) ++
  (if getOrderValue wd > highValueThresholdOf env ∧
      optTruthy env.notificationWebhookUrl = true then [Target.notification] else []) ++
  [Target.dashboard]

/-- A sink call settles as fulfilled or rejected (an error or a lost
timeout race both surface as a rejection of the wrapped promise). -/
def isRejected : Except String Unit → Bool
  | Except.error _ => true
  | Except.ok _ => false

/-- Result of the `Promise.allSettled` fan-out: which sinks were invoked
(in order) and the partial-failure summary that is logged. -/
structure DistSummary where
  invoked : List Target
  failedCount : Nat
  totalCount : Nat
deriving DecidableEq

/-- `distributeEvent` (part_003 lines 186-276): build the list of enabled
sink calls, wait for all of them via `Promise.allSettled` regardless of
individual outcome, and return the logged summary. Each sink's outcome
(fulfilled or rejected, rejections covering errors and timeouts) is the
parameter `outcome`; rejections are absorbed into `failedCount` and the
function returns an ordinary value — it has no error result. -/
def distributeEvent (env : Env) (wd : WebhookData)
    (outcome : Target → Except String Unit) : DistSummary :=
  let invoked := enabledTargets env wd
  { invoked := invoked
    failedCount := (invoked.filter (fun t => isRejected (outcome t))).length
    totalCount := invoked.length }

/-- A Failure Record as written by `storeFailedEvent` (square-api.js
lines 549-570) into the `failed_events` sorted set. -/
structure FailedEvent where
  event_id : String
  event_data : WebhookData
  errMsg : String
  retry_count : Nat
deriving DecidableEq

/-- The durable KV store: the set of `event:<id>` keys currently present,
the `metrics:<type>` increment log, and the `failed_events` sorted set in
score (oldest-first) order. -/
structure KVState where
  events : List String
  metrics : List String
  failed : List FailedEvent
deriving DecidableEq

/-- `kv.set(key, value, { nx: true })`: atomically set the key only if
absent; returns `some "OK"` when the key was written and `none` when it
already existed. This is a single store operation — the existence check
and the write cannot be interleaved with another client's operations. -/
def kvSetNX (st : KVState) (eventId : String) : Option String × KVState :=
  if st.events.contains eventId then (none, st)
  else (some "OK", { st with events := eventId :: st.events })

/-- `checkAndMarkEventProcessed` (square-api.js lines 471-510): falsy
event id returns `false`; otherwise one atomic `kv.set ... nx` call.
A non-null reply means the key was new (mark succeeded, increment the
type metric, return `true`); a null reply means a Processing Record
already existed (return `false`). `storeErr` models the KV client
throwing: the `catch` branch returns `true` — process rather than skip. -/
def checkAndMarkEventProcessed (st : KVState) (storeErr : Option String)
    (eventId : Option String) (wd : WebhookData) : Bool × KVState :=
  if !optTruthy eventId then (false, st)
  else
    match storeErr with
    | some _ => (true, st)
    | none =>
      let r := kvSetNX st (eventId.getD "")
      if (r.1).isSome then
        (true, { r.2 with metrics := jsOrUnknown wd.type :: (r.2).metrics })
      else
        (false, r.2)

/-- `isDuplicateEvent` (square-api.js lines 448-463): falsy event id
returns `false`; otherwise `kv.exists(key) === 1`. `storeErr` models the
KV client throwing: the `catch` branch returns `false` — assume not a
duplicate, better to process twice than to miss an event. -/
def isDuplicateEvent (st : KVState) (storeErr : Option String)
    (eventId : Option String) : Bool :=
  if !optTruthy eventId then false
  else
    match storeErr with
    | some _ => false
    | none => st.events.contains (eventId.getD "")

/-- `storeFailedEvent` (square-api.js lines 549-570): ignore events
without a truthy `event_id`; otherwise append a Failure Record with
`retry_count: 0` to the `failed_events` sorted set (`zadd` keyed by the
current timestamp, hence appended in arrival order). -/
def storeFailedEvent (st : KVState) (event : Option WebhookData)
    (errMsg : String) : KVState :=
  match event with
  | none => st
  | some e =>
    if !optTruthy e.event_id then st
    else
      { st with
        failed := st.failed ++
          [{ event_id := e.event_id.getD ""
             event_data := e
             errMsg := errMsg
             retry_count := 0 }] }

/-- How one `processWebhookEvent` run (part_003 lines 67-178) returns:
a permanent validation failure (logged and dropped), a duplicate skip
(a normal return, not an error), or a completed run. Every branch is a
normal return — the function's own `catch` swallows all exceptions. -/
inductive ProcOutcome
  | invalidDropped
  | duplicateSkipped
  | completed
deriving DecidableEq

/-- Observable result of one `processWebhookEvent` run: the outcome, the
`distributeEvent` invocations it performed (envelope, enriched context,
logged summary), and the KV store afterwards. -/
structure ProcResult where
  outcome : ProcOutcome
  distributed : List (WebhookData × Option WebhookData × DistSummary)
  state : KVState
deriving DecidableEq

/-- `processWebhookEvent` (part_003 lines 67-178). Missing payload or
falsy `event_id` throws `ValidationError`, which the function's own catch
classifies as permanent: logged, dropped, no Failure Record. Otherwise the
single atomic `checkAndMarkEventProcessed` call decides: an existing
Processing Record returns immediately (duplicate skipped). A fresh event
is enriched — `enrichOutcome` is the settled `Promise.race` of the Square
API call against the 5s timer; a rejection is caught and processing
continues with `enrichedData = null` — and then distributed exactly once.
`distributeEvent` absorbs sink failures, so the run completes. -/
def processWebhookEvent (env : Env) (st : KVState) (storeErr : Option String)
    (enrichOutcome : Except String WebhookData)
    (targetOutcome : Target → Except String Unit)
    (wd? : Option WebhookData) : ProcResult :=
  match wd? with
  | none => { outcome := ProcOutcome.invalidDropped, distributed := [], state := st }
  | some wd =>
    if !optTruthy wd.event_id then
      { outcome := ProcOutcome.invalidDropped, distributed := [], state := st }
    else
      let r := checkAndMarkEventProcessed st storeErr wd.event_id wd
      if !r.1 then
        { outcome := ProcOutcome.duplicateSkipped, distributed := [], state := r.2 }
      else
        let enriched : Option WebhookData :=
          match enrichOutcome with
          | Except.ok d => some d
          | Except.error _ => none
        let summary := distributeEvent env wd targetOutcome
        { outcome := ProcOutcome.completed
          distributed := [(wd, enriched, summary)]
          state := r.2 }

/-- Summary returned by the retry sweeper run. `remaining` is the
`failed_events` set after the run, `attempted` the event ids the sweeper
re-ran the pipeline for, in drain order. -/
structure SweepResult where
  remaining : List FailedEvent
  attempted : List String
  succeeded : Nat
  failedCount : Nat
deriving DecidableEq

/-- The retry sweeper loop (part_001 lines 168-200): drain all Failure
Records oldest-first; for each, re-run the processing pipeline on the
embedded envelope (`processOk` is that run's boolean result). A record
whose retry succeeds is removed; a failed record is removed only when
`retry_count >= 5`, otherwise it is kept — and the source's own comment
notes the retry count is never updated, so `retry_count` is left as is. -/
def retrySweep (ledger : List FailedEvent)
    (processOk : FailedEvent → Bool) : SweepResult :=
  { remaining := ledger.filter (fun e => !processOk e && !(decide (5 ≤ e.retry_count)))
    attempted := ledger.map (·.event_id)
    succeeded := (ledger.filter (fun e => processOk e)).length
    failedCount := (ledger.filter (fun e => !processOk e)).length }

/-- Node `Buffer.from(str, 'hex')` digit table: `0-9`, `a-f`, `A-F`. -/
def hexDigitVal? (c : Char) : Option Nat :=
  if '0' ≤ c ∧ c ≤ '9' then some (c.toNat - 48)
  else if 'a' ≤ c ∧ c ≤ 'f' then some (c.toNat - 87)
  else if 'A' ≤ c ∧ c ≤ 'F' then some (c.toNat - 55)
  else none

/-- Node `Buffer.from(str, 'hex')`: decode two hex digits per byte and
truncate at the first invalid pair (a trailing lone digit is dropped). -/
def hexDecode : List Char → List Nat
  | c1 :: c2 :: rest =>
    match hexDigitVal? c1, hexDigitVal? c2 with
    | some hi, some lo => (16 * hi + lo) :: hexDecode rest
    | _, _ => []
  | _ => []

/-- Lowercase hex digit for a value below 16, as `hmac.digest('hex')`. -/
def hexDigitChar (n : Nat) : Char :=
  if n < 10 then Char.ofNat (48 + n) else Char.ofNat (87 + n)

/-- `hmac.digest('hex')`: two lowercase hex digits per byte. -/
def hexEncode : List Nat → List Char
  | [] => []
  | b :: bs => hexDigitChar (b / 16) :: hexDigitChar (b % 16) :: hexEncode bs

/-- `hmac.digest('hex')` on a byte list: the lowercase hex string. -/
def hexEncodeStr (bs : List Nat) : String :=
  String.mk (hexEncode bs)

/-- Node `Buffer.from(s, 'hex')` on a string. -/
def bufferFromHex (s : String) : List Nat :=
  hexDecode s.toList

/-- `crypto.timingSafeEqual`: throws a `RangeError` when the two buffers
differ in length, otherwise compares them. -/
def timingSafeEqual (a b : List Nat) : Except String Bool :=
  if a.length == b.length then Except.ok (a == b)
  else Except.error "RangeError: input buffers must have the same byte length"

/-- Whether a string is entirely valid hexadecimal of even length. -/
def isHexString (s : String) : Bool :=
  s.toList.all (fun c => (hexDigitVal? c).isSome) && s.length % 2 == 0

/-- `validateSignature` (signature.js lines 13-38). `hmac payload key` is
the HMAC-SHA256 digest (a 32-byte list), an external crypto primitive.
Any falsy argument returns `false`. Otherwise the digest is rendered as
hex, both hex strings are decoded Node-style, and `timingSafeEqual`
compares them; if it throws (length mismatch) the `catch` returns
`false`. The function always returns a boolean. -/
def validateSignature (hmac : String → String → List Nat)
    (payload signature signatureKey : Option String) : Bool :=
  if !(optTruthy payload && optTruthy signature && optTruthy signatureKey) then
    false
  else
    let digest := hmac (payload.getD "") (signatureKey.getD "")
    let calculated := hexEncodeStr digest
    match timingSafeEqual (bufferFromHex calculated)
        (bufferFromHex (signature.getD "")) with
    | Except.ok b => b
    | Except.error _ => false

/-- An inbound HTTP request as the webhook handler sees it. -/
structure Request where
  method : String
  rawBody : String
  signatureHeader : Option String
deriving DecidableEq

/-- Observable actions of the handler, in order: HTTP responses sent and
the asynchronous pipeline kick-off. -/
inductive HAction
  | respond (status : Nat)
  | processAsync (wd : WebhookData)
deriving DecidableEq

/-- The webhook HTTP handler (part_003 lines 283-357) as its ordered
trace of observable actions. `parseJson` is the external `JSON.parse`
(`none` models a parse exception, answered with 400). After the method
gate: parse (400 on failure), require the configured signature key (500
when missing), validate the signature (401 on failure), and only then
send 200 — and only after the 200 is sent, start `processWebhookEvent`
asynchronously. -/
def handler (hmac : String → String → List Nat)
    (parseJson : String → Option WebhookData)
    (env : Env) (req : Request) : List HAction :=
  if req.method == "OPTIONS" then [HAction.respond 204]
  else if !(req.method == "POST") then [HAction.respond 405]
  else
    match parseJson req.rawBody with
    | none => [HAction.respond 400]
    | some wd =>
      if !optTruthy env.squareSignatureKey then [HAction.respond 500]
      else if !validateSignature hmac (some req.rawBody) req.signatureHeader
          env.squareSignatureKey then [HAction.respond 401]
      else [HAction.respond 200, HAction.processAsync wd]

/-! Concrete fixtures used by witnesses and counterexamples. -/

/-- An empty KV store. -/
def emptyState : KVState := { events := [], metrics := [], failed := [] }

/-- An environment with every sink configured and threshold 100. -/
def envFull : Env :=
  { gtmServerUrl := some "https://gtm.example"
    crmWebhookUrl := some "https://crm.example"
    notificationWebhookUrl := some "https://notify.example"
    highValueThreshold := some 100
    squareSignatureKey := some "sigkey" }

/-- A Square order object with the given `total_money.amount` in cents. -/
def orderObj (amt : Int) : SqObject :=
  { id := some "o1"
    location_id := some "L1"
    total_money := some { amount := some amt, currency := some "USD" }
    amount_money := none }

/-- The spec scenario envelope: `order.created`, id `evt-1`, given amount. -/
def wdOrder (amt : Int) : WebhookData :=
  { event_id := some "evt-1"
    type := some "order.created"
    merchant_id := some "M1"
    data := some { object := some (orderObj amt) } }

/-- An envelope with an identifier but no `type` field. -/
def wdNoType : WebhookData :=
  { event_id := some "evt-1", type := none, merchant_id := none, data := none }

/-- An envelope with a `type` but no identifier. -/
def wdNoId : WebhookData :=
  { event_id := none, type := some "order.created", merchant_id := none, data := none }

/-- All sinks fulfil. -/
def okOutcome : Target → Except String Unit := fun _ => Except.ok ()

/-- All sinks reject. -/
def failAllOutcome : Target → Except String Unit := fun _ => Except.error "sink unreachable"

/-- The Failure Record `storeFailedEvent` writes for the scenario envelope. -/
def failedOrderRecord : FailedEvent :=
  { event_id := "evt-1", event_data := wdOrder 2650, errMsg := "GTM timed out", retry_count := 0 }

/-- A POST request whose body is not JSON. -/
def reqPost : Request := { method := "POST", rawBody := "not json", signatureHeader := none }

/-- A stand-in HMAC primitive: the all-zero 32-byte digest. -/
def hmacZero : String → String → List Nat := fun _ _ => List.replicate 32 0

/-- 64 valid hex characters (the all-zero digest) followed by two
non-hex characters. -/
def sigZ : String := String.mk (List.replicate 64 '0' ++ ['z', 'z'])

/-! Helper lemmas. -/

/-- Two cons lists whose heads differ cannot both be list-prefixes of
the same list. -/
theorem head_ne_not_isPrefixOf {a b : Char} {as bs t : List Char}
    (hne : a ≠ b) (h : (a :: as).isPrefixOf t = true) :
    (b :: bs).isPrefixOf t = false := by
  cases t with
  | nil => simp [List.isPrefixOf] at h
  | cons c cs =>
    simp only [List.isPrefixOf, Bool.and_eq_true, beq_iff_eq] at h
    obtain ⟨rfl, -⟩ := h
    simp only [List.isPrefixOf, Bool.and_eq_false_iff, beq_eq_false_iff_ne, ne_eq]
    exact Or.inl fun hba => hne hba.symm

/-- An event type beginning with `order.` does not begin with `payment.`. -/
theorem typeStartsWith_order_not_payment (wd : WebhookData)
    (h : typeStartsWith wd "order." = true) : typeStartsWith wd "payment." = false := by
  unfold typeStartsWith at h ⊢
  cases hty : wd.type with
  | none => simp only [hty] at h; exact absurd h (by decide)
  | some t =>
    simp only [hty] at h ⊢
    have h2 : ('o' :: "rder.".toList).isPrefixOf t.toList = true := h
    show ('p' :: "ayment.".toList).isPrefixOf t.toList = false
    exact head_ne_not_isPrefixOf (by decide) h2

/-- An event type beginning with `payment.` does not begin with `order.`. -/
theorem typeStartsWith_payment_not_order (wd : WebhookData)
    (h : typeStartsWith wd "payment." = true) : typeStartsWith wd "order." = false := by
  unfold typeStartsWith at h ⊢
  cases hty : wd.type with
  | none => simp only [hty] at h; exact absurd h (by decide)
  | some t =>
    simp only [hty] at h ⊢
    have h2 : ('p' :: "ayment.".toList).isPrefixOf t.toList = true := h
    show ('o' :: "rder.".toList).isPrefixOf t.toList = false
    exact head_ne_not_isPrefixOf (by decide) h2

/-- The four sink pushes of `distributeEvent` are pairwise distinct, so
no enabled sink appears twice in the fan-out list. -/
theorem enabledTargets_nodup (env : Env) (wd : WebhookData) : (enabledTargets env wd).Nodup := by
  unfold enabledTargets
  split_ifs <;> decide

/-- Hex digit encode/decode roundtrip on a value below 16. -/
theorem hexDigitVal_hexDigitChar : ∀ n, n < 16 → hexDigitVal? (hexDigitChar n) = some n := by
  decide

/-- Decoding the hex rendering of a byte list gives the bytes back. -/
theorem hexDecode_hexEncode (bs : List Nat) (h : ∀ b ∈ bs, b < 256) :
    hexDecode (hexEncode bs) = bs := by
  induction bs with
  | nil => rfl
  | cons b bs ih =>
    have hb : b < 256 := h b (List.mem_cons_self b bs)
    have h1 : b / 16 < 16 := by omega
    have h2 : b % 16 < 16 := by omega
    have ih2 := ih (fun x hx => h x (List.mem_cons_of_mem b hx))
    calc hexDecode (hexEncode (b :: bs))
        = (16 * (b / 16) + b % 16) :: hexDecode (hexEncode bs) := by
          simp [hexEncode, hexDecode, hexDigitVal_hexDigitChar _ h1,
            hexDigitVal_hexDigitChar _ h2]
      _ = b :: bs := by rw [Nat.div_add_mod, ih2]

/-- `Buffer.from(hmac.digest('hex'), 'hex')` recovers the digest bytes. -/
theorem bufferFromHex_hexEncodeStr (bs : List Nat) (h : ∀ b ∈ bs, b < 256) :
    bufferFromHex (hexEncodeStr bs) = bs := by
  show hexDecode (String.mk (hexEncode bs)).data = bs
  exact hexDecode_hexEncode bs h

/-- With all three arguments truthy, `validateSignature` is the absorbed
`timingSafeEqual` comparison of the two decoded buffers. -/
theorem validateSignature_eval (hmac : String → String → List Nat) (p s k : Option String)
    (htru : (optTruthy p && optTruthy s && optTruthy k) = true) :
    validateSignature hmac p s k =
      match timingSafeEqual (bufferFromHex (hexEncodeStr (hmac (p.getD "") (k.getD ""))))
          (bufferFromHex (s.getD "")) with
      | Except.ok b => b
      | Except.error _ => false := by
  unfold validateSignature
  rw [htru]
  rfl

/-! Claim theorems. -/

/-- Claim C1: invoking `processWebhookEvent` twice with the same identifier
and payload, the second after the first completed successfully, yields
exactly one distribution: the first run completes and distributes once;
the second detects the existing Processing Record, distributes nothing,
leaves the store unchanged, and returns the duplicate-skip outcome — a
normal return, not an error. -/
theorem second_delivery_is_noop
    (env : Env) (st : KVState) (wd : WebhookData)
    (enrich1 enrich2 : Except String WebhookData)
    (out1 out2 : Target → Except String Unit)
    (hid : optTruthy wd.event_id = true)
    (hfresh : wd.event_id.getD "" ∉ st.events) :
    (processWebhookEvent env st none enrich1 out1 (some wd)).outcome = ProcOutcome.completed ∧
    (processWebhookEvent env st none enrich1 out1 (some wd)).distributed.length = 1 ∧
    (processWebhookEvent env
        (processWebhookEvent env st none enrich1 out1 (some wd)).state
        none enrich2 out2 (some wd)).outcome = ProcOutcome.duplicateSkipped ∧
    (processWebhookEvent env
        (processWebhookEvent env st none enrich1 out1 (some wd)).state
        none enrich2 out2 (some wd)).distributed = [] ∧
    (processWebhookEvent env
        (processWebhookEvent env st none enrich1 out1 (some wd)).state
        none enrich2 out2 (some wd)).state =
      (processWebhookEvent env st none enrich1 out1 (some wd)).state := by
  simp [processWebhookEvent, checkAndMarkEventProcessed, kvSetNX, hid, hfresh]

/-- Witness for C1 at the concrete scenario envelope on an empty store. -/
theorem second_delivery_is_noop_witness :
    optTruthy (wdOrder 2650).event_id = true ∧
    (wdOrder 2650).event_id.getD "" ∉ emptyState.events ∧
    (processWebhookEvent envFull emptyState none (Except.ok (wdOrder 2650)) okOutcome
      (some (wdOrder 2650))).outcome = ProcOutcome.completed :=
  ⟨by decide, by decide,
    (second_delivery_is_noop envFull emptyState (wdOrder 2650) (Except.ok (wdOrder 2650))
      (Except.ok (wdOrder 2650)) okOutcome okOutcome (by decide) (by decide)).1⟩

/-- Claim C2: the duplicate check and the marking are one atomic
create-if-absent store operation (`kv.set ... nx`), so for two concurrent
invocations with the same identifier — whose only operations on the
idempotency key are their two atomic `checkAndMarkEventProcessed` calls,
here taken in either order via the arbitrary payloads `wdA`, `wdB` — the
one whose operation lands first observes "absent" and proceeds to
enrichment and distribution, and the other observes the Processing
Record and returns immediately with nothing distributed; no interleaving
lets both pass, since neither invocation performs a separate read before
its write. -/
theorem concurrent_duplicate_atomic_safety
    (env : Env) (st : KVState) (idStr : String) (wdA wdB : WebhookData)
    (enrichA enrichB : Except String WebhookData)
    (outA outB : Target → Except String Unit)
    (hA : wdA.event_id = some idStr) (hB : wdB.event_id = some idStr)
    (hne : idStr ≠ "") (hfresh : idStr ∉ st.events) :
    (checkAndMarkEventProcessed st none (some idStr) wdA).1 = true ∧
    (checkAndMarkEventProcessed (checkAndMarkEventProcessed st none (some idStr) wdA).2
      none (some idStr) wdB).1 = false ∧
    (processWebhookEvent env st none enrichA outA (some wdA)).outcome = ProcOutcome.completed ∧
    (processWebhookEvent env st none enrichA outA (some wdA)).distributed.length = 1 ∧
    (processWebhookEvent env (processWebhookEvent env st none enrichA outA (some wdA)).state
      none enrichB outB (some wdB)).outcome = ProcOutcome.duplicateSkipped ∧
    (processWebhookEvent env (processWebhookEvent env st none enrichA outA (some wdA)).state
      none enrichB outB (some wdB)).distributed = [] := by
  simp [processWebhookEvent, checkAndMarkEventProcessed, kvSetNX, hA, hB, optTruthy, hne, hfresh]

/-- Witness for C2 at the concrete scenario on an empty store. -/
theorem concurrent_duplicate_atomic_safety_witness :
    (checkAndMarkEventProcessed emptyState none (some "evt-1") (wdOrder 2650)).1 = true :=
  (concurrent_duplicate_atomic_safety envFull emptyState "evt-1" (wdOrder 2650) (wdOrder 15000)
    (Except.ok (wdOrder 2650)) (Except.ok (wdOrder 15000)) okOutcome okOutcome
    rfl rfl (by decide) (by decide)).1

/-- Claim C3 (evaluating the code at the failing input): the Failure
Record is stored with `retry_count = 0`; on a sweep where its retry fails
the record is attempted but kept with its count unchanged, and after six
consecutive all-fail sweeps it is still in the ledger — it is retried a
6th time and never removed, because no code path ever increments
`retry_count` and the `retry_count >= 5` removal branch is unreachable
for records the system itself wrote. -/
theorem retry_count_never_incremented :
    (storeFailedEvent emptyState (some (wdOrder 2650)) "GTM timed out").failed
      = [failedOrderRecord] ∧
    failedOrderRecord.retry_count = 0 ∧
    (retrySweep [failedOrderRecord] (fun _ => false)).attempted = ["evt-1"] ∧
    (retrySweep [failedOrderRecord] (fun _ => false)).remaining = [failedOrderRecord] ∧
    (fun l => (retrySweep l (fun _ => false)).remaining)^[6] [failedOrderRecord]
      = [failedOrderRecord] := by
  decide

/-- Claim C4, counterexample: an envelope with an identifier but no
`type` is not rejected — `processWebhookEvent` completes and performs a
distribution, contradicting the claim that a missing type is a permanent
validation failure with no distribution. -/
theorem missing_type_still_distributed :
    (processWebhookEvent envFull emptyState none (Except.error "enrichment failed") okOutcome
      (some wdNoType)).outcome = ProcOutcome.completed ∧
    (processWebhookEvent envFull emptyState none (Except.error "enrichment failed") okOutcome
      (some wdNoType)).distributed.length = 1 := by
  norm_num +decide [processWebhookEvent, checkAndMarkEventProcessed, kvSetNX, distributeEvent,
    enabledTargets, getOrderValue, typeStartsWith, wdNoType, totalAmount, paymentAmount,
    amountTruthy, highValueThresholdOf, envFull, emptyState, optTruthy, jsOrUnknown]

/-- Claim C4, as amended: only a null payload or a missing (falsy)
identifier is rejected as a permanent validation failure — no
enrichment, no distribution, and no store write of any kind, so in
particular no Failure Record. -/
theorem missing_identifier_rejected_permanently
    (env : Env) (st : KVState) (storeErr : Option String)
    (enrich : Except String WebhookData) (out : Target → Except String Unit) :
    ((processWebhookEvent env st storeErr enrich out none).outcome = ProcOutcome.invalidDropped ∧
     (processWebhookEvent env st storeErr enrich out none).distributed = [] ∧
     (processWebhookEvent env st storeErr enrich out none).state = st) ∧
    (∀ wd : WebhookData, optTruthy wd.event_id = false →
      (processWebhookEvent env st storeErr enrich out (some wd)).outcome = ProcOutcome.invalidDropped ∧
      (processWebhookEvent env st storeErr enrich out (some wd)).distributed = [] ∧
      (processWebhookEvent env st storeErr enrich out (some wd)).state = st) := by
  refine ⟨by simp [processWebhookEvent], fun wd h => ?_⟩
  simp [processWebhookEvent, h]

/-- Witness for the amended C4 at an envelope without an identifier. -/
theorem missing_identifier_rejected_permanently_witness :
    optTruthy wdNoId.event_id = false ∧
    (processWebhookEvent envFull emptyState none (Except.error "e") okOutcome
      (some wdNoId)).outcome = ProcOutcome.invalidDropped :=
  ⟨by decide,
    ((missing_identifier_rejected_permanently envFull emptyState none (Except.error "e")
      okOutcome).2 wdNoId (by decide)).1⟩

/-- Claim C5: on a POST, an unparsable body answers 400; a parsable body
with no configured signature key answers 500; with a key but a failing
signature validation answers 401; and when validation succeeds the trace
is exactly the 200 response followed by the asynchronous pipeline start,
so the 200 is issued only after validation succeeds and before
enrichment and distribution run. -/
theorem handler_status_codes_and_response_order
    (hmac : String → String → List Nat) (parseJson : String → Option WebhookData)
    (env : Env) (req : Request) (hpost : req.method = "POST") :
    (parseJson req.rawBody = none → handler hmac parseJson env req = [HAction.respond 400]) ∧
    (∀ wd, parseJson req.rawBody = some wd → optTruthy env.squareSignatureKey = false →
      handler hmac parseJson env req = [HAction.respond 500]) ∧
    (∀ wd, parseJson req.rawBody = some wd → optTruthy env.squareSignatureKey = true →
      validateSignature hmac (some req.rawBody) req.signatureHeader env.squareSignatureKey = false →
      handler hmac parseJson env req = [HAction.respond 401]) ∧
    (∀ wd, parseJson req.rawBody = some wd → optTruthy env.squareSignatureKey = true →
      validateSignature hmac (some req.rawBody) req.signatureHeader env.squareSignatureKey = true →
      handler hmac parseJson env req = [HAction.respond 200, HAction.processAsync wd]) := by
  refine ⟨fun hp => ?_, fun wd hp hk => ?_, fun wd hp hk hv => ?_, fun wd hp hk hv => ?_⟩
  · simp [handler, hpost, hp]
  · simp [handler, hpost, hp, hk]
  · simp [handler, hpost, hp, hk, hv]
  · simp [handler, hpost, hp, hk, hv]

/-- Witness for C5 at a POST request whose body does not parse. -/
theorem handler_status_codes_and_response_order_witness :
    handler hmacZero (fun _ => none) envFull reqPost = [HAction.respond 400] :=
  (handler_status_codes_and_response_order hmacZero (fun _ => none) envFull reqPost rfl).1 rfl

/-- Claim C6: with threshold 100, the `order.created` envelope with
amount 2650 has value 26.50 and the alert sink is not invoked; with
amount 15000 the value is 150 and the alert sink is invoked exactly
once. In general, an `order.*` envelope with `total_money.amount = a`
(and a `payment.*` envelope with `amount_money.amount = a`) has value
`a / 100`, and the alert sink is invoked exactly when that value
strictly exceeds the configured threshold and the notification URL is
configured. -/
theorem high_value_alert_threshold :
    getOrderValue (wdOrder 2650) = 2650 / 100 ∧
    (∀ out, (distributeEvent envFull (wdOrder 2650) out).invoked.count Target.notification = 0) ∧
    getOrderValue (wdOrder 15000) = 15000 / 100 ∧
    (∀ out, (distributeEvent envFull (wdOrder 15000) out).invoked.count Target.notification = 1) ∧
    (∀ (wd : WebhookData) (a : Int), typeStartsWith wd "order." = true →
      totalAmount wd = some a → getOrderValue wd = (a : ℚ) / 100) ∧
    (∀ (wd : WebhookData) (a : Int), typeStartsWith wd "payment." = true →
      paymentAmount wd = some a → getOrderValue wd = (a : ℚ) / 100) ∧
    (∀ (env : Env) (wd : WebhookData) (out : Target → Except String Unit),
      Target.notification ∈ (distributeEvent env wd out).invoked ↔
        (getOrderValue wd > highValueThresholdOf env ∧
         optTruthy env.notificationWebhookUrl = true)) := by
  refine ⟨?_, ?_, ?_, ?_, ?_, ?_, ?_⟩
  · norm_num [getOrderValue, typeStartsWith, wdOrder, orderObj, totalAmount, paymentAmount,
      amountTruthy]
  · intro out
    norm_num +decide [distributeEvent, enabledTargets, getOrderValue, typeStartsWith, wdOrder,
      orderObj, totalAmount, paymentAmount, amountTruthy, highValueThresholdOf, envFull, optTruthy]
  · norm_num [getOrderValue, typeStartsWith, wdOrder, orderObj, totalAmount, paymentAmount,
      amountTruthy]
  · intro out
    norm_num +decide [distributeEvent, enabledTargets, getOrderValue, typeStartsWith, wdOrder,
      orderObj, totalAmount, paymentAmount, amountTruthy, highValueThresholdOf, envFull, optTruthy]
  · intro wd a hord htot
    by_cases haz : a = 0
    · subst haz
      have hp : typeStartsWith wd "payment." = false := typeStartsWith_order_not_payment wd hord
      simp [getOrderValue, hord, hp, htot, amountTruthy]
    · simp [getOrderValue, hord, htot, amountTruthy, haz]
  · intro wd a hpay hamt
    have ho : typeStartsWith wd "order." = false := typeStartsWith_payment_not_order wd hpay
    by_cases haz : a = 0
    · subst haz
      simp [getOrderValue, ho, hpay, hamt, amountTruthy]
    · simp [getOrderValue, ho, hpay, hamt, amountTruthy, haz]
  · intro env wd out
    simp only [distributeEvent, enabledTargets, List.mem_append]
    split_ifs with h1 h2 h3 <;> simp_all

/-- Witness for C6: the general order-event value clause applied at the
concrete scenario envelope. -/
theorem high_value_alert_threshold_witness :
    typeStartsWith (wdOrder 2650) "order." = true ∧
    totalAmount (wdOrder 2650) = some 2650 ∧
    getOrderValue (wdOrder 2650) = (2650 : ℚ) / 100 :=
  ⟨by decide, by decide,
    high_value_alert_threshold.2.2.2.2.1 (wdOrder 2650) 2650 (by decide) (by decide)⟩

/-- Claim C7: whatever subset of sinks rejects (error or timeout), the
fan-out list is the full enabled list, each enabled sink appears in it
exactly once, the summary counts every enabled sink, and the failed
count tallies exactly the rejected ones — `distributeEvent` returns this
plain summary for every outcome assignment, absorbing sink failures
rather than raising. -/
theorem fanout_isolation (env : Env) (wd : WebhookData) (outcome : Target → Except String Unit) :
    (distributeEvent env wd outcome).invoked = enabledTargets env wd ∧
    (∀ t, t ∈ enabledTargets env wd →
      (distributeEvent env wd outcome).invoked.count t = 1) ∧
    (distributeEvent env wd outcome).totalCount = (enabledTargets env wd).length ∧
    (distributeEvent env wd outcome).failedCount =
      ((enabledTargets env wd).filter (fun t => isRejected (outcome t))).length := by
  refine ⟨rfl, fun t ht => ?_, rfl, rfl⟩
  exact List.count_eq_one_of_mem (enabledTargets_nodup env wd) ht

/-- Witness for C7 with every sink rejecting: the dashboard sink is
enabled and still invoked exactly once. -/
theorem fanout_isolation_witness :
    Target.dashboard ∈ enabledTargets envFull wdNoType ∧
    (distributeEvent envFull wdNoType failAllOutcome).invoked.count Target.dashboard = 1 :=
  ⟨by decide,
    (fanout_isolation envFull wdNoType failAllOutcome).2.1 Target.dashboard (by decide)⟩

/-- Claim C8: when the enrichment race settles as an error (failure or
timeout), `processWebhookEvent` still completes, performs exactly one
distribution with an empty Enriched Context (`none`), and writes no
Failure Record — the failure ledger is unchanged. -/
theorem enrichment_failure_distribution_proceeds
    (env : Env) (st : KVState) (wd : WebhookData) (errMsg : String)
    (out : Target → Except String Unit)
    (hid : optTruthy wd.event_id = true)
    (hfresh : wd.event_id.getD "" ∉ st.events) :
    (processWebhookEvent env st none (Except.error errMsg) out (some wd)).outcome
      = ProcOutcome.completed ∧
    (processWebhookEvent env st none (Except.error errMsg) out (some wd)).distributed =
      [(wd, none, distributeEvent env wd out)] ∧
    (processWebhookEvent env st none (Except.error errMsg) out (some wd)).state.failed
      = st.failed := by
  simp [processWebhookEvent, checkAndMarkEventProcessed, kvSetNX, hid, hfresh]

/-- Witness for C8 at the concrete scenario envelope with a timed-out
enrichment. -/
theorem enrichment_failure_distribution_proceeds_witness :
    (processWebhookEvent envFull emptyState none (Except.error "Enrichment timed out") okOutcome
      (some (wdOrder 2650))).outcome = ProcOutcome.completed :=
  (enrichment_failure_distribution_proceeds envFull emptyState (wdOrder 2650)
    "Enrichment timed out" okOutcome (by decide) (by decide)).1

/-- Claim C9: when the store operation itself throws, the duplicate
suppression fails open toward reprocessing: `checkAndMarkEventProcessed`
returns `true` leaving the store untouched, `isDuplicateEvent` returns
`false`, and consequently a redelivered envelope is fully processed —
distributed — on both deliveries when the store errors on each. -/
theorem store_errors_fail_open
    (st : KVState) (kvErrA kvErrB : String) (idStr : String) (wd : WebhookData)
    (hne : idStr ≠ "") :
    (checkAndMarkEventProcessed st (some kvErrA) (some idStr) wd).1 = true ∧
    (checkAndMarkEventProcessed st (some kvErrA) (some idStr) wd).2 = st ∧
    isDuplicateEvent st (some kvErrB) (some idStr) = false ∧
    (∀ (env : Env) (st' : KVState) (wd' : WebhookData)
        (enrich1 enrich2 : Except String WebhookData)
        (out1 out2 : Target → Except String Unit) (e1 e2 : String),
      optTruthy wd'.event_id = true →
      (processWebhookEvent env st' (some e1) enrich1 out1 (some wd')).outcome
        = ProcOutcome.completed ∧
      (processWebhookEvent env st' (some e1) enrich1 out1 (some wd')).distributed.length = 1 ∧
      (processWebhookEvent env
          (processWebhookEvent env st' (some e1) enrich1 out1 (some wd')).state
          (some e2) enrich2 out2 (some wd')).outcome = ProcOutcome.completed ∧
      (processWebhookEvent env
          (processWebhookEvent env st' (some e1) enrich1 out1 (some wd')).state
          (some e2) enrich2 out2 (some wd')).distributed.length = 1) := by
  refine ⟨?_, ?_, ?_, fun env st' wd' enrich1 enrich2 out1 out2 e1 e2 hid => ?_⟩
  · simp [checkAndMarkEventProcessed, optTruthy, hne]
  · simp [checkAndMarkEventProcessed, optTruthy, hne]
  · simp [isDuplicateEvent, optTruthy, hne]
  · simp [processWebhookEvent, checkAndMarkEventProcessed, hid]

/-- Witness for C9 at the concrete scenario with a throwing store. -/
theorem store_errors_fail_open_witness :
    ("evt-1" : String) ≠ "" ∧
    (checkAndMarkEventProcessed emptyState (some "connection lost") (some "evt-1")
      (wdOrder 2650)).1 = true :=
  ⟨by decide,
    (store_errors_fail_open emptyState "connection lost" "connection lost" "evt-1"
      (wdOrder 2650) (by decide)).1⟩

/-- Claim C10, counterexample: a signature consisting of the digest hex
followed by non-hex garbage is not valid hexadecimal, yet
`validateSignature` accepts it, because Node hex decoding truncates at
the first invalid pair and the decoded 32-byte head equals the digest —
contradicting the claim that any non-hexadecimal signature yields
`false`. -/
theorem signature_hex_garbage_accepted :
    isHexString sigZ = false ∧
    validateSignature hmacZero (some "payload") (some sigZ) (some "key") = true := by
  decide

/-- Claim C10, as amended: for any 32-byte-digest HMAC primitive,
`validateSignature` always returns a boolean; it is `false` whenever any
of payload, signature, or key is missing (falsy), `false` whenever the
Node-style decode of the signature is not exactly 32 bytes (the case in
which `timingSafeEqual` would throw, absorbed by the catch), and with
truthy inputs it is `true` exactly when the decoded signature — the
longest valid hex-pair head, full hex validity not required — equals the
HMAC-SHA256 digest of the payload under the key. -/
theorem validateSignature_characterization (hmac : String → String → List Nat)
    (hLen : ∀ p k, (hmac p k).length = 32)
    (hByte : ∀ p k b, b ∈ hmac p k → b < 256) :
    (∀ p s k, (optTruthy p && optTruthy s && optTruthy k) = false →
      validateSignature hmac p s k = false) ∧
    (∀ p s k, (bufferFromHex (s.getD "")).length ≠ 32 →
      validateSignature hmac p s k = false) ∧
    (∀ p s k, optTruthy p = true → optTruthy s = true → optTruthy k = true →
      (validateSignature hmac p s k = true ↔
        bufferFromHex (s.getD "") = hmac (p.getD "") (k.getD ""))) := by
  have hrt : ∀ p k, bufferFromHex (hexEncodeStr (hmac p k)) = hmac p k :=
    fun p k => bufferFromHex_hexEncodeStr _ (fun b hb => hByte p k b hb)
  refine ⟨fun p s k h => ?_, fun p s k h => ?_, fun p s k hp hs hk => ?_⟩
  · simp [validateSignature, h]
  · cases htru : (optTruthy p && optTruthy s && optTruthy k) with
    | false => simp [validateSignature, htru]
    | true =>
      rw [validateSignature_eval hmac p s k htru, hrt]
      have hne : ((hmac (p.getD "") (k.getD "")).length
          == (bufferFromHex (s.getD "")).length) = false := by
        rw [hLen]
        exact beq_eq_false_iff_ne.mpr (Ne.symm h)
      simp [timingSafeEqual, hne]
  · have htru : (optTruthy p && optTruthy s && optTruthy k) = true := by
      simp [hp, hs, hk]
    rw [validateSignature_eval hmac p s k htru, hrt]
    by_cases hlen : (bufferFromHex (s.getD "")).length = 32
    · have heq : ((hmac (p.getD "") (k.getD "")).length
          == (bufferFromHex (s.getD "")).length) = true := by
        rw [hLen, hlen]
        rfl
      simp only [timingSafeEqual, heq, if_true]
      rw [beq_iff_eq]
      exact eq_comm
    · have hne : ((hmac (p.getD "") (k.getD "")).length
          == (bufferFromHex (s.getD "")).length) = false := by
        rw [hLen]
        exact beq_eq_false_iff_ne.mpr (fun hh => hlen hh.symm)
      simp only [timingSafeEqual, hne, Bool.false_eq_true, if_false]
      constructor
      · intro hv
        exact absurd hv (by simp)
      · intro heq
        exact absurd (by rw [heq, hLen] : (bufferFromHex (s.getD "")).length = 32) hlen

/-- Witness for the amended C10: a short non-decodable signature is
rejected under the all-zero digest primitive. -/
theorem validateSignature_characterization_witness :
    validateSignature hmacZero (some "payload") (some "abc") (some "key") = false :=
  (validateSignature_characterization hmacZero
    (fun _ _ => by simp [hmacZero])
    (fun _ _ b hb => by
      have hb0 : b = 0 := by simpa [hmacZero] using hb
      omega)).2.1 (some "payload") (some "abc") (some "key") (by decide)

end SquareWebhook
